import Mathlib

/-!
Verification development for the jira-test-automation repository.

The definitions below are a shallow embedding of the self-healing test
execution pipeline: the Artifact Patcher (`updatePageObjectSelector`), the
correction loop (`correctFailedSelectors`), the Test Runner Adapter's result
parsing (`runPlaywrightTests`), the Repair Loop Controller (`triggerAgent3`)
and the Workflow Orchestrator (`triggerFullWorkflow`).

File contents are modelled as `List Char`.  External effects (file reads,
network fetches, the AI advisory call, subprocess runs) are modelled as
explicit environment records supplying the outcome of each effectful call;
the pure control flow and string processing are translated directly from
the JavaScript source.  JavaScript exceptions are modelled with `Except`,
and each `try/catch` in the source appears as an explicit recovery in the
corresponding definition.
-/

namespace JiraAuto

/-! ### Characters used by the locator-replacement patterns

The source builds the patterns with quote characters; we name them by code
point to keep the development readable. -/

def squote : Char := Char.ofNat 39

def dquote : Char := Char.ofNat 34

def btick : Char := Char.ofNat 96

def lparen : Char := Char.ofNat 40

def rparen : Char := Char.ofNat 41

def colonChar : Char := Char.ofNat 58

def spaceChar : Char := Char.ofNat 32

def dollarChar : Char := Char.ofNat 36

def oneChar : Char := Char.ofNat 49

def twoChar : Char := Char.ofNat 50

/-- Character class of the first pattern's opening position:
`['"\x60(]` in `new RegExp(...)` at agent3 line 331. -/
def isOpener (c : Char) : Bool :=
  c = squote || c = dquote || c = btick || c = lparen

/-- Character class of the first pattern's closing position: `['"\x60)]`. -/
def isCloser (c : Char) : Bool :=
  c = squote || c = dquote || c = btick || c = rparen

/-- Character class used by the second pattern: `['"\x60]` (a quote). -/
def isQuote (c : Char) : Bool :=
  c = squote || c = dquote || c = btick

/-! ### Exact-literal matching helpers -/

/-- `splitAfter pat l` strips the literal `pat` from the front of `l`,
returning the remainder, or `none` when `pat` is not a prefix of `l`.
This models matching the escaped literal `escapeRegex(originalSelector)`
inside the patterns (agent3 lines 331-332, 356-358). -/
def splitAfter : List Char → List Char → Option (List Char)
  | [], cs => some cs
  | _ :: _, [] => none
  | o :: os, c :: cs => if c = o then splitAfter os cs else none

/-- `startsWith pat l` : `pat` is a prefix of `l`. -/
def startsWith : List Char → List Char → Bool
  | [], _ => true
  | _ :: _, [] => false
  | p :: ps, c :: cs => p = c && startsWith ps cs

/-- `containsSubstr pat l` : `pat` occurs contiguously somewhere in `l`. -/
def containsSubstr (pat : List Char) : List Char → Bool
  | [] => startsWith pat []
  | c :: cs => startsWith pat (c :: cs) || containsSubstr pat cs

/-! ### Pattern 1: `(['"\x60(])ORIG(['"\x60)])` with the global flag -/

/-- Does pattern 1 match at the head of `l`?  A match is an opener
character, the original selector literal, then a closer character. -/
def matchP1At (orig : List Char) : List Char → Bool
  | [] => false
  | c :: cs =>
    isOpener c &&
      (match splitAfter orig cs with
       | some (q2 :: _) => isCloser q2
       | _ => false)

/-- `pattern.test(pageContent)` for pattern 1: does a match occur at any
position of `l`? -/
def matchesP1 (orig : List Char) : List Char → Bool
  | [] => false
  | c :: cs => matchP1At orig (c :: cs) || matchesP1 orig cs

/-! ### Pattern 2: `: ['"\x60]ORIG['"\x60]` with the global flag -/

/-- Does pattern 2 match at the head of `l`?  A match is a colon, a space,
a quote, the original selector literal, then a quote. -/
def matchP2At (orig : List Char) : List Char → Bool
  | a :: b :: q :: rest =>
    a = colonChar && b = spaceChar && isQuote q &&
      (match splitAfter orig rest with
       | some (q2 :: _) => isQuote q2
       | _ => false)
  | _ => false

/-- `pattern.test(pageContent)` for pattern 2. -/
def matchesP2 (orig : List Char) : List Char → Bool
  | [] => false
  | c :: cs => matchP2At orig (c :: cs) || matchesP2 orig cs

/-! ### Global replacement

`pageContent.replace(pattern, `$1SUGG$2`)` with a global regex replaces
every non-overlapping leftmost match, resuming the scan after each match.
We implement the scan with an explicit fuel argument (bounded by the length
of the scanned list) so that the definitions are structurally recursive and
evaluate inside `decide`.  The model inserts the suggested selector
literally: dollar-escape expansion inside the suggested selector itself is
not modelled (CSS selectors in the claims contain no dollar sequences). -/

/-- One global-replace scan for pattern 1 (`fuel`-bounded).  At a match
`q1 ++ orig ++ q2` the replacement template `$1SUGG$2` expands to
`q1 ++ sugg ++ q2` because the pattern has two capture groups. -/
def scanReplace1F (orig sugg : List Char) : Nat → List Char → List Char
  | 0, l => l
  | _ + 1, [] => []
  | fuel + 1, c :: cs =>
    if isOpener c then
      match splitAfter orig cs with
      | some (q2 :: rest) =>
        if isCloser q2 then c :: (sugg ++ q2 :: scanReplace1F orig sugg fuel rest)
        else c :: scanReplace1F orig sugg fuel cs
      | _ => c :: scanReplace1F orig sugg fuel cs
    else c :: scanReplace1F orig sugg fuel cs

/-- Global replacement for pattern 1. -/
def scanReplace1 (orig sugg l : List Char) : List Char :=
  scanReplace1F orig sugg l.length l

/-- Number of (non-overlapping, leftmost) pattern-1 matches, counted with
the same scan as the global replacement. -/
def countMatches1F (orig : List Char) : Nat → List Char → Nat
  | 0, _ => 0
  | _ + 1, [] => 0
  | fuel + 1, c :: cs =>
    if isOpener c then
      match splitAfter orig cs with
      | some (q2 :: rest) =>
        if isCloser q2 then countMatches1F orig fuel rest + 1
        else countMatches1F orig fuel cs
      | _ => countMatches1F orig fuel cs
    else countMatches1F orig fuel cs

/-- Number of pattern-1 match sites in `l`. -/
def countMatches1 (orig l : List Char) : Nat :=
  countMatches1F orig l.length l

/-- One global-replace scan for pattern 2 (`fuel`-bounded).  Pattern 2 has
no capture groups, so in the template `$1SUGG$2` the tokens `$1` and `$2`
are copied literally by the JavaScript replacement (ECMAScript
GetSubstitution leaves `$n` verbatim when the pattern has fewer than `n`
groups). -/
def scanReplace2F (orig sugg : List Char) : Nat → List Char → List Char
  | 0, l => l
  | _ + 1, [] => []
  | _ + 1, [c] => [c]
  | _ + 1, [c, d] => [c, d]
  | fuel + 1, a :: b :: q :: rest =>
    if a = colonChar && b = spaceChar && isQuote q then
      match splitAfter orig rest with
      | some (q2 :: rest2) =>
        if isQuote q2 then
          dollarChar :: oneChar :: (sugg ++ dollarChar :: twoChar ::
            scanReplace2F orig sugg fuel rest2)
        else a :: scanReplace2F orig sugg fuel (b :: q :: rest)
      | _ => a :: scanReplace2F orig sugg fuel (b :: q :: rest)
    else a :: scanReplace2F orig sugg fuel (b :: q :: rest)

/-- Global replacement for pattern 2. -/
def scanReplace2 (orig sugg l : List Char) : List Char :=
  scanReplace2F orig sugg l.length l

/-! ### The Artifact Patcher: `updatePageObjectSelector` (agent3 313-354) -/

/-- The parsed JSON advisory returned by the AI backend
(`originalSelector`, `suggestedSelector`, `confidence`, `explanation`;
agent3 lines 260-267).  `elementType` plays no role in the control flow
and is omitted. -/
structure Suggestion where
  originalSelector : List Char
  suggestedSelector : List Char
  confidence : String
  explanation : String
deriving DecidableEq, Repr

/-- Environment of one `updatePageObjectSelector` call: the outcomes of
its file-system effects and of the page-import regex.

* `testReadOk` — `fs.readFile(path.join(repoDir, testFile))` succeeds
  (a rejection is caught at line 350 and the call returns `false`);
* `importFound` — the regex
  `import\s+{\s*(\w+)\s*}\s+from\s+['"]([^'"]+)['"]` matches the test
  file content (line 319; no match returns `false`).  The claims only
  quantify over the two outcomes, so the regex itself is not unfolded;
* `pageReadOk` — reading the resolved page-object file succeeds;
* `pageContent` — content of the resolved page-object file;
* `writeOk` — `fs.writeFile` succeeds (a rejection is caught and the call
  returns `false`; the on-disk content is then modelled as unchanged). -/
structure PatchEnv where
  testReadOk : Bool
  importFound : Bool
  pageReadOk : Bool
  pageContent : List Char
  writeOk : Bool
deriving DecidableEq, Repr

/-- Result of one `updatePageObjectSelector` call: the resulting content
of the page-object file and the returned boolean. -/
structure PatchResult where
  content : List Char
  updated : Bool
deriving DecidableEq, Repr

/-- Shallow embedding of `updatePageObjectSelector` (agent3 313-354):
try pattern 1 then pattern 2 on the page-object content; on the first
pattern that tests positive, perform the (global) replacement and write
the file, returning `true`; otherwise return `false` without writing.
Any thrown error is caught and the call returns `false`. -/
def updatePageObjectSelector (env : PatchEnv) (s : Suggestion) : PatchResult :=
  if !env.testReadOk then ⟨env.pageContent, false⟩
  else if !env.importFound then ⟨env.pageContent, false⟩
  else if !env.pageReadOk then ⟨env.pageContent, false⟩
  else if matchesP1 s.originalSelector env.pageContent then
    if env.writeOk then
      ⟨scanReplace1 s.originalSelector s.suggestedSelector env.pageContent, true⟩
    else ⟨env.pageContent, false⟩
  else if matchesP2 s.originalSelector env.pageContent then
    if env.writeOk then
      ⟨scanReplace2 s.originalSelector s.suggestedSelector env.pageContent, true⟩
    else ⟨env.pageContent, false⟩
  else ⟨env.pageContent, false⟩

/-! ### Locator Extractor (agent3 218-219, 231-232)

`failedTest.error.match(/locator\('([^']+)'\)|selector\('([^']+)'\)|'([^']+)'/)`
and `pageContent.match(/page\.goto\(['"]([^'"]+)['"]\)/)`.  The JavaScript
engine returns the leftmost match, trying the alternatives in order at
each position; `[^']+` is a maximal nonempty run of non-quote characters
(no backtracking is possible since the run cannot cross a quote). -/

/-- Split `l` at its first single quote: `some (before, after)` where
`before` holds the characters preceding the quote.  Models `([^']+)'`
(the capture must then be nonempty, checked by the caller). -/
def takeToSquote : List Char → Option (List Char × List Char)
  | [] => none
  | c :: cs =>
    if c = squote then some ([], cs)
    else
      match takeToSquote cs with
      | some (cap, rest) => some (c :: cap, rest)
      | none => none

/-- Split `l` at its first single or double quote, also returning the
quote found.  Models `([^'"]+)['"]`. -/
def takeToQuote2 : List Char → Option (List Char × Char × List Char)
  | [] => none
  | c :: cs =>
    if c = squote || c = dquote then some ([], c, cs)
    else
      match takeToQuote2 cs with
      | some (cap, q, rest) => some (c :: cap, q, rest)
      | none => none

/-- Literal `locator('` of the first alternative. -/
def locatorLit : List Char := "locator".toList ++ [lparen, squote]

/-- Literal `selector('` of the second alternative. -/
def selectorLit : List Char := "selector".toList ++ [lparen, squote]

/-- Literal `page.goto(` of the URL pattern. -/
def gotoLit : List Char := "page.goto".toList ++ [lparen]

/-- Try alternative `LIT ++ '([^']+)'\)` at the head of `l`: the literal,
a nonempty capture up to the closing quote, then a right parenthesis. -/
def matchCallAlt (lit : List Char) (l : List Char) : Option (List Char) :=
  match splitAfter lit l with
  | none => none
  | some l2 =>
    match takeToSquote l2 with
    | some (cap, rparenRest) =>
      match rparenRest with
      | r :: _ => if cap ≠ [] && r = rparen then some cap else none
      | [] => none
    | none => none

/-- Try alternative `'([^']+)'` at the head of `l`. -/
def matchQuoteAlt (l : List Char) : Option (List Char) :=
  match l with
  | q :: rest =>
    if q = squote then
      match takeToSquote rest with
      | some (cap, _) => if cap ≠ [] then some cap else none
      | none => none
    else none
  | [] => none

/-- The three alternatives of the selector-extraction regex, in the order
the engine tries them at a fixed position. -/
def extractSelectorAt (l : List Char) : Option (List Char) :=
  match matchCallAlt locatorLit l with
  | some cap => some cap
  | none =>
    match matchCallAlt selectorLit l with
    | some cap => some cap
    | none => matchQuoteAlt l

/-- `extractSelector err` is the selector captured by the leftmost match
of the extraction regex on the error message, with
`elementMatch?.[1] || elementMatch?.[2] || elementMatch?.[3]` collapsing
to the (always nonempty) capture of whichever alternative matched. -/
def extractSelector : List Char → Option (List Char)
  | [] => none
  | c :: cs =>
    match extractSelectorAt (c :: cs) with
    | some cap => some cap
    | none => extractSelector cs

/-- Try `page\.goto\(['"]([^'"]+)['"]\)` at the head of `l`. -/
def extractUrlAt (l : List Char) : Option (List Char) :=
  match splitAfter gotoLit l with
  | none => none
  | some l2 =>
    match l2 with
    | q :: l3 =>
      if q = squote || q = dquote then
        match takeToQuote2 l3 with
        | some (cap, _, l4) =>
          match l4 with
          | r :: _ => if cap ≠ [] && r = rparen then some cap else none
          | [] => none
        | none => none
      else none
    | [] => none

/-- `extractUrl content` is the URL captured by the leftmost match of the
navigation-call regex on the test source text (`urlMatch?.[1]`). -/
def extractUrl : List Char → Option (List Char)
  | [] => none
  | c :: cs =>
    match extractUrlAt (c :: cs) with
    | some cap => some cap
    | none => extractUrl cs

/-! ### The correction loop: `correctFailedSelectors` (agent3 210-311) -/

/-- One entry of `failedTests` as built by the runner adapter
(agent3 188-192): `{name: test.title, file: test.file, error: ...}`. -/
structure FailedTest where
  name : String
  file : String
  error : List Char
deriving DecidableEq, Repr

/-- One applied correction as pushed at agent3 293-298. -/
structure Correction where
  test : String
  file : String
  originalSelector : List Char
  newSelector : List Char
deriving DecidableEq, Repr

/-- Environment of one correction attempt: outcomes of the effectful calls
made for a single failed test.

* `pageFileContent` — `fs.readFile(path.join(repoDir, failedTest.file))`;
  `none` models a rejected read (the thrown error is caught by the
  attempt's `catch` at line 305);
* `htmlFetched` — the `axios.get` fetch succeeded with truthy data (a
  failure is turned into `null` by the inline `.catch` and the attempt is
  skipped at line 243);
* `aiResponse` — the advisory call: `some s` when `messages.create`
  succeeds and its text parses as JSON, `none` when the call or
  `JSON.parse` throws (caught by the attempt's `catch`);
* `patchEnv` — environment of the `updatePageObjectSelector` call. -/
structure AttemptEnv where
  pageFileContent : Option (List Char)
  htmlFetched : Bool
  aiResponse : Option Suggestion
  patchEnv : PatchEnv
deriving DecidableEq, Repr

/-- Observable outcome of one attempt: the correction pushed (if any),
whether a page-object write was performed, and the resulting content of
the page-object file. -/
structure AttemptOutcome where
  correction : Option Correction
  wrote : Bool
  patchedContent : List Char
deriving DecidableEq, Repr

/-- The outcome of an attempt that applies nothing and leaves the
page-object file untouched. -/
def skippedOutcome (env : AttemptEnv) : AttemptOutcome :=
  ⟨none, false, env.patchEnv.pageContent⟩

/-- Body of one iteration of the correction loop (agent3 214-303),
before the surrounding `try/catch`: `Except.error` marks a thrown
JavaScript error (rejected file read, failed advisory call or unparseable
advisory response); `Except.ok` with no correction marks the explicit
`continue`-style skips. -/
def attemptBody (env : AttemptEnv) (ft : FailedTest) : Except String AttemptOutcome :=
  match extractSelector ft.error with
  | none => .ok (skippedOutcome env)
  | some _ =>
    match env.pageFileContent with
    | none => .error "page file read failed"
    | some pageContent =>
      match extractUrl pageContent with
      | none => .ok (skippedOutcome env)
      | some _ =>
        if !env.htmlFetched then .ok (skippedOutcome env)
        else
          match env.aiResponse with
          | none => .error "advisory call failed or response unparseable"
          | some s =>
            if s.confidence = "high" || s.confidence = "medium" then
              let pr := updatePageObjectSelector env.patchEnv s
              if pr.updated then
                .ok ⟨some ⟨ft.name, ft.file, s.originalSelector, s.suggestedSelector⟩,
                     true, pr.content⟩
              else .ok ⟨none, false, pr.content⟩
            else .ok (skippedOutcome env)

/-- One iteration of the correction loop with its `try/catch`
(agent3 213-307): a thrown error is logged and the attempt contributes
nothing. -/
def runAttempt (env : AttemptEnv) (ft : FailedTest) : AttemptOutcome :=
  match attemptBody env ft with
  | .ok o => o
  | .error _ => skippedOutcome env

/-- `correctFailedSelectors` (agent3 210-311): iterate over the failed
tests (each paired with the environment of its attempt), pushing the
correction of every attempt that applied one. -/
def correctFailedSelectors (attempts : List (FailedTest × AttemptEnv)) : List Correction :=
  attempts.foldl
    (fun acc p =>
      match (runAttempt p.2 p.1).correction with
      | some c => acc ++ [c]
      | none => acc)
    []

/-! ### Test Runner Adapter: result parsing in `runPlaywrightTests`
(agent3 149-208)

The subprocess itself is external (`execSync` in a `try/catch`: a nonzero
exit code is swallowed).  What remains is the parsing of
`test-results/results.json`.  We model the parsed JSON down to the shape
the walk inspects; a `none` entry in a list models a JSON `null` there
(property access on `null` throws a `TypeError`, caught by the outer
`catch` at line 196, which keeps the counts accumulated so far). -/

/-- One entry of a suite's `tests` array as the walk reads it:
`status`, `title`, `file` and `error?.message`.  `errorMsg = none` models
a missing `error` object or message; the `||` fallback also replaces an
empty message (falsy in JavaScript). -/
structure TestJson where
  status : String
  title : String
  file : String
  errorMsg : Option (List Char)
deriving DecidableEq, Repr

/-- One entry of the report's `suites` array: `tests = none` models a
missing `tests` field (the optional-chained `forEach` then skips). -/
structure SuiteJson where
  tests : Option (List (Option TestJson))
deriving DecidableEq, Repr

/-- Outcome of reading and parsing `test-results/results.json`:
`unreadable` models a missing file or a `JSON.parse` failure (caught at
line 196 with zero counts); `parsed none` models a parsed value without a
`suites` array. -/
inductive ReportOutcome where
  | unreadable : ReportOutcome
  | parsed : Option (List (Option SuiteJson)) → ReportOutcome
deriving DecidableEq, Repr

/-- The uniform result model built by the adapter (agent3 170-175). -/
structure TestRunResult where
  totalTests : Nat
  passed : Nat
  failed : Nat
  failedTests : List FailedTest
deriving DecidableEq, Repr

/-- The zero-initialized result (agent3 170-175). -/
def emptyRunResult : TestRunResult := ⟨0, 0, 0, []⟩

/-- The fallback error message `'Unknown error'`. -/
def unknownError : List Char := "Unknown error".toList

/-- Processing of one well-formed test entry (agent3 183-193). -/
def stepTest (acc : TestRunResult) (t : TestJson) : TestRunResult :=
  if t.status = "passed" then
    { acc with totalTests := acc.totalTests + 1, passed := acc.passed + 1 }
  else
    { acc with
        totalTests := acc.totalTests + 1
        failed := acc.failed + 1
        failedTests := acc.failedTests ++
          [⟨t.title, t.file,
            match t.errorMsg with
            | some m => if m = [] then unknownError else m
            | none => unknownError⟩] }

/-- Walk of one `tests` array.  A `null` entry throws after
`totalTests++` (line 183 runs, then `test.status` throws); the second
component records whether a throw occurred. -/
def walkTests (acc : TestRunResult) : List (Option TestJson) → TestRunResult × Bool
  | [] => (acc, false)
  | none :: _ => ({ acc with totalTests := acc.totalTests + 1 }, true)
  | some t :: rest => walkTests (stepTest acc t) rest

/-- Walk of the `suites` array.  A `null` suite entry throws at
`suite.tests` before touching the counts; a throw inside a suite aborts
the remaining suites. -/
def walkSuites (acc : TestRunResult) : List (Option SuiteJson) → TestRunResult × Bool
  | [] => (acc, false)
  | none :: _ => (acc, true)
  | some s :: rest =>
    match s.tests with
    | none => walkSuites acc rest
    | some ts =>
      let p := walkTests acc ts
      if p.2 then p else walkSuites p.1 rest

/-- Shallow embedding of the result parsing of `runPlaywrightTests`
(agent3 168-207): the returned `TestRunResult` for a given report
outcome.  (The `screenshots` field added at lines 200-205 does not touch
the counts and is omitted.) -/
def runPlaywrightTests : ReportOutcome → TestRunResult
  | .unreadable => emptyRunResult
  | .parsed none => emptyRunResult
  | .parsed (some suites) => (walkSuites emptyRunResult suites).1

/-- A suite entry is walked without a `TypeError` when it is `null`
(throws before touching the counts), has no `tests` array, or has one
whose entries are all objects. -/
def suiteOk : Option SuiteJson → Bool
  | none => true
  | some s =>
    match s.tests with
    | none => true
    | some ts => ts.all Option.isSome

/-- Reports for which no test entry is `null`: the walk never throws in
the middle of counting a test. -/
def reportOk : ReportOutcome → Bool
  | .unreadable => true
  | .parsed none => true
  | .parsed (some suites) => suites.all suiteOk

/-! ### Repair Loop Controller: `triggerAgent3` (agent3 26-122)

Modelled over the repair-loop portion (lines 52-82): the initial run, the
correction pass gated on `failed > 0`, and the single gated rerun.  The
surrounding repository preparation, commit/PR publishing and Jira
reporting do not touch the aggregation and are outside the model; the
aggregated `testResults` value is the one handed to
`updateJiraWithResults`.  The two runner invocations are supplied by the
environment, and the result records how many times the runner and the
correction loop were invoked. -/

/-- Environment of one `triggerAgent3` execution: the adapter result of
the initial run, the attempt environments consumed (in order) by the
correction loop, the adapter result of the (potential) rerun, and the
start timestamp. -/
structure Agent3Env where
  initial : TestRunResult
  attemptEnvs : List AttemptEnv
  retry : TestRunResult
  startTime : Nat
deriving Repr

/-- The aggregated `testResults` of `triggerAgent3` (agent3 37-44),
instrumented with the number of `runPlaywrightTests` invocations and the
number of `correctFailedSelectors` invocations. -/
structure Agent3Result where
  totalTests : Nat
  passed : Nat
  failed : Nat
  correctedSelectors : List Correction
  startTime : Nat
  runnerCalls : Nat
  correctionLoopCalls : Nat
deriving Repr

/-- Shallow embedding of the repair loop of `triggerAgent3`
(agent3 52-82). -/
def triggerAgent3 (env : Agent3Env) : Agent3Result :=
  let init := env.initial
  if init.failed > 0 then
    let corrections := correctFailedSelectors (init.failedTests.zip env.attemptEnvs)
    if corrections.length > 0 then
      { totalTests := init.totalTests
        passed := env.retry.passed
        failed := env.retry.failed
        correctedSelectors := corrections
        startTime := env.startTime
        runnerCalls := 2
        correctionLoopCalls := 1 }
    else
      { totalTests := init.totalTests
        passed := init.passed
        failed := init.failed
        correctedSelectors := corrections
        startTime := env.startTime
        runnerCalls := 1
        correctionLoopCalls := 1 }
  else
    { totalTests := init.totalTests
      passed := init.passed
      failed := init.failed
      correctedSelectors := []
      startTime := env.startTime
      runnerCalls := 1
      correctionLoopCalls := 0 }

/-! ### Workflow Orchestrator: `triggerFullWorkflow` (server.js 73-124)
and `triggerAgent1` (agent1 14-83)

`triggerAgent1` posts to Jira, generates test cases, saves them, posts
again, and then awaits `triggerAgent2` itself; any thrown error is caught,
reported and rethrown.  `triggerFullWorkflow` awaits `triggerAgent1`
unguarded, then loads the saved test cases (failure logged and ignored),
then awaits `triggerAgent2` directly inside a `try/catch`, then awaits
`triggerAgent3` inside a `try/catch`; a throw from `triggerAgent1`
reaches the outer `catch`, which logs and returns. -/

/-- Equality of modelled call outcomes is decidable (used to evaluate
concrete workflow environments). -/
instance exceptDecEq {α β : Type} [DecidableEq α] [DecidableEq β] :
    DecidableEq (Except α β)
  | .ok a, .ok b =>
    if h : a = b then isTrue (by rw [h]) else isFalse (fun hh => h (by injection hh))
  | .ok _, .error _ => isFalse (fun hh => Except.noConfusion hh)
  | .error _, .ok _ => isFalse (fun hh => Except.noConfusion hh)
  | .error a, .error b =>
    if h : a = b then isTrue (by rw [h]) else isFalse (fun hh => h (by injection hh))

/-- Outcomes of the effectful steps inside `triggerAgent1`
(agent1 30-65): the initial Jira update, the Claude-backed test-case
generation, the file save, the completion Jira update, and the embedded
`triggerAgent2` invocation (agent1 64-65). -/
structure Agent1Env where
  jiraStart : Except String Unit
  generation : Except String Unit
  save : Except String Unit
  jiraDone : Except String Unit
  embeddedAgent2 : Except String Unit
deriving DecidableEq, Repr

/-- Shallow embedding of `triggerAgent1` (agent1 14-83): the first step
that throws makes the whole call throw (the `catch` posts an error
comment and rethrows, line 81). -/
def triggerAgent1 (env : Agent1Env) : Except String Unit :=
  match env.jiraStart with
  | .error e => .error e
  | .ok _ =>
    match env.generation with
    | .error e => .error e
    | .ok _ =>
      match env.save with
      | .error e => .error e
      | .ok _ =>
        match env.jiraDone with
        | .error e => .error e
        | .ok _ => env.embeddedAgent2

/-- Environment of one `triggerFullWorkflow` execution. -/
structure WorkflowEnv where
  agent1 : Agent1Env
  testCasesLoadOk : Bool
  directAgent2 : Except String Unit
  agent3 : Except String Unit
deriving DecidableEq, Repr

/-- Observable trace of one `triggerFullWorkflow` execution: which stages
were invoked, which failures were logged, and whether the final
completion banner (server.js 117-119) was reached. -/
structure WorkflowTrace where
  agent1Invoked : Bool
  directAgent2Invoked : Bool
  agent3Invoked : Bool
  completionLogged : Bool
  agent2ErrorLogged : Bool
  agent3ErrorLogged : Bool
  fatalErrorLogged : Bool
deriving DecidableEq, Repr

/-- Shallow embedding of `triggerFullWorkflow` (server.js 73-124). -/
def triggerFullWorkflow (env : WorkflowEnv) : WorkflowTrace :=
  match triggerAgent1 env.agent1 with
  | .error _ =>
    { agent1Invoked := true
      directAgent2Invoked := false
      agent3Invoked := false
      completionLogged := false
      agent2ErrorLogged := false
      agent3ErrorLogged := false
      fatalErrorLogged := true }
  | .ok _ =>
    { agent1Invoked := true
      directAgent2Invoked := true
      agent3Invoked := true
      completionLogged := true
      agent2ErrorLogged := env.directAgent2.isOk = false
      agent3ErrorLogged := env.agent3.isOk = false
      fatalErrorLogged := false }

/-! ## Helper lemmas -/

theorem splitAfter_length (pat : List Char) :
    ∀ cs ds, splitAfter pat cs = some ds → ds.length + pat.length = cs.length := by
  induction pat with
  | nil =>
    intro cs ds h
    simp only [splitAfter, Option.some.injEq] at h
    subst h; simp
  | cons o os ih =>
    intro cs ds h
    cases cs with
    | nil => simp [splitAfter] at h
    | cons c cs2 =>
      simp only [splitAfter] at h
      split at h
      · have := ih cs2 ds h
        simp only [List.length_cons]
        omega
      · exact Option.noConfusion h

theorem splitAfter_startsWith (pat : List Char) :
    ∀ cs ds, splitAfter pat cs = some ds → startsWith pat cs = true := by
  induction pat with
  | nil => intro cs ds _; rfl
  | cons o os ih =>
    intro cs ds h
    cases cs with
    | nil => simp [splitAfter] at h
    | cons c cs2 =>
      simp only [splitAfter] at h
      split at h
      next hco =>
        simp only [startsWith, Bool.and_eq_true, decide_eq_true_eq]
        exact ⟨hco.symm, ih cs2 ds h⟩
      next => exact Option.noConfusion h

theorem startsWith_containsSubstr (pat l : List Char) :
    startsWith pat l = true → containsSubstr pat l = true := by
  cases l with
  | nil => intro h; simpa [containsSubstr] using h
  | cons c cs => intro h; simp [containsSubstr, h]

theorem containsSubstr_cons (pat : List Char) (c : Char) (cs : List Char) :
    containsSubstr pat cs = true → containsSubstr pat (c :: cs) = true := by
  intro h; simp [containsSubstr, h]

theorem matchesP1_cons (orig : List Char) (c : Char) (cs : List Char) :
    matchesP1 orig cs = true → matchesP1 orig (c :: cs) = true := by
  intro h; simp [matchesP1, h]

theorem isQuote_isOpener {c : Char} (h : isQuote c = true) : isOpener c = true := by
  simp only [isQuote, Bool.or_eq_true, decide_eq_true_eq] at h
  simp only [isOpener, Bool.or_eq_true, decide_eq_true_eq]
  tauto

theorem isQuote_isCloser {c : Char} (h : isQuote c = true) : isCloser c = true := by
  simp only [isQuote, Bool.or_eq_true, decide_eq_true_eq] at h
  simp only [isCloser, Bool.or_eq_true, decide_eq_true_eq]
  tauto

/-- The second replacement pattern is subsumed by the first: any text
matching `: ['"\x60]ORIG['"\x60]` contains `['"\x60(]ORIG['"\x60)]` two
characters in.  Consequently the pattern-2 branch of the Artifact Patcher
is unreachable (the loop breaks on pattern 1 first). -/
theorem matchesP2_imp_matchesP1 (orig : List Char) :
    ∀ l, matchesP2 orig l = true → matchesP1 orig l = true := by
  intro l
  induction l with
  | nil => simp [matchesP2]
  | cons c cs ih =>
    intro h
    simp only [matchesP2, Bool.or_eq_true] at h
    rcases h with h | h
    · cases cs with
      | nil => simp [matchP2At] at h
      | cons b cs2 =>
        cases cs2 with
        | nil => simp [matchP2At] at h
        | cons q rest =>
          simp only [matchP2At, Bool.and_eq_true] at h
          obtain ⟨⟨⟨_, _⟩, hq⟩, hrest⟩ := h
          have hP1At : matchP1At orig (q :: rest) = true := by
            simp only [matchP1At, Bool.and_eq_true]
            refine ⟨isQuote_isOpener hq, ?_⟩
            cases hsp : splitAfter orig rest with
            | none => rw [hsp] at hrest; exact absurd hrest (by simp)
            | some ds =>
              rw [hsp] at hrest
              cases ds with
              | nil => exact absurd hrest (by simp)
              | cons q2 ds2 => simpa using isQuote_isCloser (by simpa using hrest)
          have h1 : matchesP1 orig (q :: rest) = true := by
            simp [matchesP1, hP1At]
          exact matchesP1_cons _ _ _ (matchesP1_cons _ _ _ h1)
    · exact matchesP1_cons _ _ _ (ih h)

theorem matchesP1_containsSubstr (orig : List Char) :
    ∀ l, matchesP1 orig l = true → containsSubstr orig l = true := by
  intro l
  induction l with
  | nil => simp [matchesP1]
  | cons c cs ih =>
    intro h
    simp only [matchesP1, Bool.or_eq_true] at h
    rcases h with h | h
    · simp only [matchP1At, Bool.and_eq_true] at h
      obtain ⟨_, hsp⟩ := h
      cases hs : splitAfter orig cs with
      | none => rw [hs] at hsp; exact absurd hsp (by simp)
      | some ds =>
        exact containsSubstr_cons _ _ _
          (startsWith_containsSubstr _ _ (splitAfter_startsWith orig cs ds hs))
    · exact containsSubstr_cons _ _ _ (ih h)

/-- When the original locator does not occur in the content at all,
neither replacement pattern can test positive. -/
theorem noSubstr_noMatch (orig l : List Char) (h : containsSubstr orig l = false) :
    matchesP1 orig l = false ∧ matchesP2 orig l = false := by
  constructor
  · cases h1 : matchesP1 orig l with
    | false => rfl
    | true => rw [matchesP1_containsSubstr orig l h1] at h; exact Bool.noConfusion h
  · cases h2 : matchesP2 orig l with
    | false => rfl
    | true =>
      rw [matchesP1_containsSubstr orig l (matchesP2_imp_matchesP1 orig l h2)] at h
      exact Bool.noConfusion h

/-- Length accounting of the global pattern-1 replacement: every counted
match site exchanges the original selector for the suggested one, so the
length changes by exactly the count times the difference. -/
theorem scanReplace1F_length (orig sugg : List Char) :
    ∀ fuel l, l.length ≤ fuel →
      (scanReplace1F orig sugg fuel l).length + countMatches1F orig fuel l * orig.length
        = l.length + countMatches1F orig fuel l * sugg.length := by
  intro fuel
  induction fuel with
  | zero =>
    intro l _
    simp [scanReplace1F, countMatches1F]
  | succ fuel ih =>
    intro l hl
    cases l with
    | nil => simp [scanReplace1F, countMatches1F]
    | cons c cs =>
      have hcs : cs.length ≤ fuel := by
        simp only [List.length_cons] at hl; omega
      by_cases hop : isOpener c
      · cases hsp : splitAfter orig cs with
        | none =>
          simp only [scanReplace1F, countMatches1F, hop, hsp, if_true, List.length_cons]
          have := ih cs hcs
          omega
        | some ds =>
          cases ds with
          | nil =>
            simp only [scanReplace1F, countMatches1F, hop, hsp, if_true, List.length_cons]
            have := ih cs hcs
            omega
          | cons q2 rest =>
            by_cases hcl : isCloser q2
            · have hrest : rest.length ≤ fuel := by
                have := splitAfter_length orig cs (q2 :: rest) hsp
                simp only [List.length_cons] at this
                omega
              simp only [scanReplace1F, countMatches1F, hop, hsp, hcl, if_true,
                List.length_cons, List.length_append]
              have hih := ih rest hrest
              have hexp : (countMatches1F orig fuel rest + 1) * orig.length
                  = countMatches1F orig fuel rest * orig.length + orig.length := by
                ring
              have hexp2 : (countMatches1F orig fuel rest + 1) * sugg.length
                  = countMatches1F orig fuel rest * sugg.length + sugg.length := by
                ring
              rw [hexp, hexp2]
              have := splitAfter_length orig cs (q2 :: rest) hsp
              simp only [List.length_cons] at this
              omega
            · have hclf : isCloser q2 = false := by simpa using hcl
              simp only [scanReplace1F, countMatches1F, hop, hsp, hclf, if_true]
              simp only [Bool.false_eq_true, if_false, List.length_cons]
              have := ih cs hcs
              omega
      · have hopf : isOpener c = false := by simpa using hop
        simp only [scanReplace1F, countMatches1F, hopf]
        simp only [Bool.false_eq_true, if_false, List.length_cons]
        have := ih cs hcs
        omega

/-- Length accounting for `scanReplace1` and `countMatches1`. -/
theorem scanReplace1_length (orig sugg l : List Char) :
    (scanReplace1 orig sugg l).length + countMatches1 orig l * orig.length
      = l.length + countMatches1 orig l * sugg.length :=
  scanReplace1F_length orig sugg l.length l (Nat.le_refl _)

/-- Characterization of a successful patch call: it requires all three
file-system steps and the write to succeed, pattern 1 must test positive
(pattern 2 alone is impossible by `matchesP2_imp_matchesP1`), and the
written content is the global pattern-1 replacement. -/
theorem patch_updated_spec (env : PatchEnv) (s : Suggestion)
    (h : (updatePageObjectSelector env s).updated = true) :
    env.testReadOk = true ∧ env.importFound = true ∧ env.pageReadOk = true ∧
    env.writeOk = true ∧
    matchesP1 s.originalSelector env.pageContent = true ∧
    (updatePageObjectSelector env s).content
      = scanReplace1 s.originalSelector s.suggestedSelector env.pageContent := by
  unfold updatePageObjectSelector at h ⊢
  by_cases h1 : env.testReadOk
  · by_cases h2 : env.importFound
    · by_cases h3 : env.pageReadOk
      · simp only [h1, h2, h3, Bool.not_true, Bool.false_eq_true, if_false] at h ⊢
        by_cases hm1 : matchesP1 s.originalSelector env.pageContent
        · by_cases hw : env.writeOk
          · simp [hm1, hw, h1, h2, h3]
          · simp [hm1, hw] at h
        · by_cases hm2 : matchesP2 s.originalSelector env.pageContent
          · exact absurd (matchesP2_imp_matchesP1 _ _ hm2) (by simp [hm1])
          · simp [hm1, hm2] at h
      · simp [h1, h2, h3] at h
    · simp [h1, h2] at h
  · simp [h1] at h

/-- A patch call that reports no change leaves the content untouched. -/
theorem patch_not_updated_content (env : PatchEnv) (s : Suggestion)
    (h : (updatePageObjectSelector env s).updated = false) :
    (updatePageObjectSelector env s).content = env.pageContent := by
  unfold updatePageObjectSelector at h ⊢
  by_cases h1 : env.testReadOk
  · by_cases h2 : env.importFound
    · by_cases h3 : env.pageReadOk
      · simp only [h1, h2, h3, Bool.not_true, Bool.false_eq_true, if_false] at h ⊢
        by_cases hm1 : matchesP1 s.originalSelector env.pageContent
        · by_cases hw : env.writeOk
          · simp [hm1, hw] at h
          · simp [hm1, hw]
        · by_cases hm2 : matchesP2 s.originalSelector env.pageContent
          · by_cases hw : env.writeOk
            · simp [hm1, hm2, hw] at h
            · simp [hm1, hm2, hw]
          · simp [hm1, hm2]
      · simp [h1, h2, h3]
    · simp [h1, h2]
  · simp [h1]

/-- The walk of a `tests` array preserves `failed = |failedTests|`, with
or without a throw: the two fields are updated together. -/
theorem walkTests_failed (ts : List (Option TestJson)) :
    ∀ acc : TestRunResult, acc.failed = acc.failedTests.length →
      (walkTests acc ts).1.failed = (walkTests acc ts).1.failedTests.length := by
  induction ts with
  | nil => intro acc h; simpa [walkTests] using h
  | cons ot rest ih =>
    intro acc h
    cases ot with
    | none => simpa [walkTests] using h
    | some t =>
      simp only [walkTests]
      apply ih
      by_cases hs : t.status = "passed" <;> simp [stepTest, hs, h]

/-- On a `tests` array with no `null` entry, the walk does not throw and
preserves `totalTests = passed + failed`. -/
theorem walkTests_total (ts : List (Option TestJson)) (hts : ts.all Option.isSome = true) :
    ∀ acc : TestRunResult, acc.totalTests = acc.passed + acc.failed →
      (walkTests acc ts).2 = false ∧
        (walkTests acc ts).1.totalTests
          = (walkTests acc ts).1.passed + (walkTests acc ts).1.failed := by
  induction ts with
  | nil => intro acc h; exact ⟨rfl, h⟩
  | cons ot rest ih =>
    intro acc h
    cases ot with
    | none => simp at hts
    | some t =>
      simp only [List.all_cons, Bool.and_eq_true] at hts
      simp only [walkTests]
      apply ih hts.2
      by_cases hs : t.status = "passed" <;> simp [stepTest, hs, h] <;> omega

/-- The walk of the `suites` array preserves `failed = |failedTests|`
unconditionally. -/
theorem walkSuites_failed (suites : List (Option SuiteJson)) :
    ∀ acc : TestRunResult, acc.failed = acc.failedTests.length →
      (walkSuites acc suites).1.failed = (walkSuites acc suites).1.failedTests.length := by
  induction suites with
  | nil => intro acc h; simpa [walkSuites] using h
  | cons os rest ih =>
    intro acc h
    cases os with
    | none => simpa [walkSuites] using h
    | some s =>
      cases hts : s.tests with
      | none => simpa only [walkSuites, hts] using ih acc h
      | some ts =>
        have hw := walkTests_failed ts acc h
        by_cases hp : (walkTests acc ts).2 = true
        · simpa only [walkSuites, hts, hp, if_true] using hw
        · have hpf : (walkTests acc ts).2 = false := by simpa using hp
          simpa only [walkSuites, hts, hpf, Bool.false_eq_true, if_false] using
            ih (walkTests acc ts).1 hw

/-- On a report with no `null` test entry, the walk of the `suites` array
preserves `totalTests = passed + failed`. -/
theorem walkSuites_total (suites : List (Option SuiteJson))
    (hok : suites.all suiteOk = true) :
    ∀ acc : TestRunResult, acc.totalTests = acc.passed + acc.failed →
      (walkSuites acc suites).1.totalTests
        = (walkSuites acc suites).1.passed + (walkSuites acc suites).1.failed := by
  induction suites with
  | nil => intro acc h; simpa [walkSuites] using h
  | cons os rest ih =>
    intro acc h
    simp only [List.all_cons, Bool.and_eq_true] at hok
    cases os with
    | none => simpa [walkSuites] using h
    | some s =>
      cases hts : s.tests with
      | none => simpa only [walkSuites, hts] using ih hok.2 acc h
      | some ts =>
        have hts2 : ts.all Option.isSome = true := by
          have := hok.1
          simpa [suiteOk, hts] using this
        have hw := walkTests_total ts hts2 acc h
        simpa only [walkSuites, hts, hw.1, Bool.false_eq_true, if_false] using
          ih hok.2 (walkTests acc ts).1 hw.2

/-- Case analysis of one correction-loop iteration: it either throws one
of the two modelled exceptions (caught by the loop), skips, or reaches the
patch call with a high/medium-confidence suggestion. -/
theorem attemptBody_cases (env : AttemptEnv) (ft : FailedTest) :
    (∃ e, attemptBody env ft = .error e) ∨
    attemptBody env ft = .ok (skippedOutcome env) ∨
    (∃ s, env.aiResponse = some s ∧
      (s.confidence = "high" ∨ s.confidence = "medium") ∧
      attemptBody env ft =
        (let pr := updatePageObjectSelector env.patchEnv s
         if pr.updated then
           .ok ⟨some ⟨ft.name, ft.file, s.originalSelector, s.suggestedSelector⟩,
                true, pr.content⟩
         else .ok ⟨none, false, pr.content⟩)) := by
  cases hsel : extractSelector ft.error with
  | none => exact Or.inr (Or.inl (by simp [attemptBody, hsel]))
  | some sel =>
    cases hpc : env.pageFileContent with
    | none =>
      exact Or.inl ⟨"page file read failed", by simp [attemptBody, hsel, hpc]⟩
    | some pc =>
      cases hurl : extractUrl pc with
      | none => exact Or.inr (Or.inl (by simp [attemptBody, hsel, hpc, hurl]))
      | some u =>
        cases hf : env.htmlFetched with
        | false =>
          exact Or.inr (Or.inl (by simp [attemptBody, hsel, hpc, hurl, hf]))
        | true =>
          cases hai : env.aiResponse with
          | none =>
            exact Or.inl ⟨"advisory call failed or response unparseable",
              by simp [attemptBody, hsel, hpc, hurl, hf, hai]⟩
          | some s =>
            by_cases hc : s.confidence = "high" ∨ s.confidence = "medium"
            · refine Or.inr (Or.inr ⟨s, rfl, hc, ?_⟩)
              have hcb : (decide (s.confidence = "high")
                  || decide (s.confidence = "medium")) = true := by
                simpa using hc
              simp only [attemptBody, hsel, hpc, hurl, hf, hai, hcb]
              simp
            · have hcb : (decide (s.confidence = "high")
                  || decide (s.confidence = "medium")) = false := by
                simpa using hc
              exact Or.inr (Or.inl
                (by simp [attemptBody, hsel, hpc, hurl, hf, hai, hcb]))

/-- A thrown (and caught) attempt contributes nothing and leaves the
page-object file untouched. -/
theorem runAttempt_error (env : AttemptEnv) (ft : FailedTest) (e : String)
    (h : attemptBody env ft = .error e) :
    runAttempt env ft = skippedOutcome env := by
  unfold runAttempt
  rw [h]

/-- The correction loop's push-only fold is a `filterMap`: every attempt
is processed and contributes its correction, if any, in order. -/
theorem correctFailedSelectors_eq_filterMap :
    ∀ attempts : List (FailedTest × AttemptEnv),
      correctFailedSelectors attempts
        = attempts.filterMap (fun p => (runAttempt p.2 p.1).correction) := by
  have haux : ∀ (l : List (FailedTest × AttemptEnv)) (acc : List Correction),
      l.foldl
        (fun acc p =>
          match (runAttempt p.2 p.1).correction with
          | some c => acc ++ [c]
          | none => acc) acc
        = acc ++ l.filterMap (fun p => (runAttempt p.2 p.1).correction) := by
    intro l
    induction l with
    | nil => intro acc; simp
    | cons p rest ih =>
      intro acc
      cases h : (runAttempt p.2 p.1).correction with
      | none => simp [List.foldl_cons, List.filterMap_cons, h, ih]
      | some c => simp [List.foldl_cons, List.filterMap_cons, h, ih]
  intro attempts
  unfold correctFailedSelectors
  simpa using haux attempts []

/-! ## Claims -/

/-- C1 (amended).  The claim said at most one textual occurrence of the
original locator is rewritten per call; in fact both replacement regexes
carry the global flag, so when a pattern matches, EVERY matching
occurrence is rewritten in one call.  Amended statement, proved here:
when no pattern matches, the file content is left byte-for-byte unchanged
and the call returns false rather than raising an error; and whenever the
call reports a change, it performed the global pattern-1 substitution
(the pattern-2 branch is unreachable), whose length accounting shows that
all `countMatches1` sites — possibly more than one — were rewritten. -/
theorem c1_patcher_no_match_unchanged_and_global_rewrite
    (env : PatchEnv) (s : Suggestion) :
    ((matchesP1 s.originalSelector env.pageContent = false ∧
      matchesP2 s.originalSelector env.pageContent = false) →
      updatePageObjectSelector env s = ⟨env.pageContent, false⟩) ∧
    ((updatePageObjectSelector env s).updated = true →
      matchesP1 s.originalSelector env.pageContent = true ∧
      (updatePageObjectSelector env s).content
        = scanReplace1 s.originalSelector s.suggestedSelector env.pageContent ∧
      (updatePageObjectSelector env s).content.length
          + countMatches1 s.originalSelector env.pageContent * s.originalSelector.length
        = env.pageContent.length
          + countMatches1 s.originalSelector env.pageContent * s.suggestedSelector.length) := by
  constructor
  · rintro ⟨h1, h2⟩
    unfold updatePageObjectSelector
    by_cases ha : env.testReadOk <;> by_cases hb : env.importFound <;>
      by_cases hc : env.pageReadOk <;> simp [ha, hb, hc, h1, h2]
  · intro h
    obtain ⟨_, _, _, _, hm, hcont⟩ := patch_updated_spec env s h
    refine ⟨hm, hcont, ?_⟩
    rw [hcont]
    exact scanReplace1_length _ _ _

/-- Witness for C1: a concrete non-matching call returns the unchanged
content and false. -/
theorem c1_witness :
    matchesP1 "q".toList "nomatch".toList = false ∧
    matchesP2 "q".toList "nomatch".toList = false ∧
    updatePageObjectSelector ⟨true, true, true, "nomatch".toList, true⟩
        ⟨"q".toList, "z".toList, "high", ""⟩
      = ⟨"nomatch".toList, false⟩ :=
  ⟨by decide, by decide,
    (c1_patcher_no_match_unchanged_and_global_rewrite
      ⟨true, true, true, "nomatch".toList, true⟩
      ⟨"q".toList, "z".toList, "high", ""⟩).1 ⟨by decide, by decide⟩⟩

/-- Page-object content with two quoted occurrences of the locator x. -/
def c1content : List Char :=
  "a=".toList ++ [squote] ++ "x".toList ++ [squote] ++
    ";b=".toList ++ [squote] ++ "x".toList ++ [squote]

/-- Patch environment of the C1 counterexample. -/
def c1env : PatchEnv := ⟨true, true, true, c1content, true⟩

/-- Suggestion of the C1 counterexample. -/
def c1sugg : Suggestion := ⟨"x".toList, "yy".toList, "high", "renamed"⟩

/-- Counterexample to C1 as stated: the input content holds two
pattern-matching occurrences of the original locator; the call reports a
change and afterwards the original locator occurs nowhere — both sites
were rewritten, not at most one. -/
theorem c1_counterexample :
    countMatches1 "x".toList c1content = 2 ∧
    (updatePageObjectSelector c1env c1sugg).updated = true ∧
    containsSubstr "x".toList (updatePageObjectSelector c1env c1sugg).content = false := by
  decide

/-- C7 (amended).  As stated, the claim fails: when the suggested locator
reintroduces a quoted occurrence of the original (for example when it
equals the original), the second call patches again.  Amended statement,
proved here: after a first call that reports a change, IF the original
locator no longer occurs in the resulting content (the situation the spec
describes), a second call with the same suggestion on that content
reports no change and leaves it unchanged. -/
theorem c7_patcher_idempotent_when_original_gone
    (env : PatchEnv) (s : Suggestion)
    (_hfirst : (updatePageObjectSelector env s).updated = true)
    (hgone : containsSubstr s.originalSelector
      (updatePageObjectSelector env s).content = false) :
    updatePageObjectSelector
        { env with pageContent := (updatePageObjectSelector env s).content } s
      = ⟨(updatePageObjectSelector env s).content, false⟩ := by
  obtain ⟨hm1, hm2⟩ := noSubstr_noMatch _ _ hgone
  generalize hg : (updatePageObjectSelector env s).content = c2 at hm1 hm2 ⊢
  unfold updatePageObjectSelector
  by_cases ha : env.testReadOk <;> by_cases hb : env.importFound <;>
    by_cases hc : env.pageReadOk <;> by_cases hw : env.writeOk <;>
      simp [ha, hb, hc, hw, hm1, hm2]

/-- Patch environment of the C7 witness. -/
def c7env : PatchEnv := ⟨true, true, true, [squote] ++ "a".toList ++ [squote], true⟩

/-- Suggestion of the C7 witness: the replacement removes the original. -/
def c7sugg : Suggestion := ⟨"a".toList, "b".toList, "medium", "swap"⟩

/-- Witness for C7: a concrete first call rewrites the locator, the
original is gone, and the second call reports no change. -/
theorem c7_witness :
    (updatePageObjectSelector c7env c7sugg).updated = true ∧
    containsSubstr "a".toList (updatePageObjectSelector c7env c7sugg).content = false ∧
    updatePageObjectSelector
        { c7env with pageContent := (updatePageObjectSelector c7env c7sugg).content } c7sugg
      = ⟨(updatePageObjectSelector c7env c7sugg).content, false⟩ :=
  ⟨by decide, by decide,
    c7_patcher_idempotent_when_original_gone c7env c7sugg (by decide) (by decide)⟩

/-- Patch environment of the C7 counterexample. -/
def c7xenv : PatchEnv := ⟨true, true, true, [squote] ++ "a".toList ++ [squote], true⟩

/-- Suggestion of the C7 counterexample: suggested equals original. -/
def c7xsugg : Suggestion := ⟨"a".toList, "a".toList, "high", "same"⟩

/-- Counterexample to C7 as stated: the first call succeeds (reports a
change), yet the second call on the resulting content with the same
correction again reports a change instead of the claimed no-change. -/
theorem c7_counterexample :
    (updatePageObjectSelector c7xenv c7xsugg).updated = true ∧
    (updatePageObjectSelector
        { c7xenv with pageContent := (updatePageObjectSelector c7xenv c7xsugg).content }
        c7xsugg).updated = true := by
  decide

/-- C6 (confirmed).  A suggestion whose confidence is not high and not
medium (in particular, low) is never applied: the attempt performs no
patch write, records no correction, and leaves the page-object content
untouched. -/
theorem c6_low_confidence_never_applied
    (env : AttemptEnv) (ft : FailedTest) (s : Suggestion)
    (hai : env.aiResponse = some s)
    (h1 : s.confidence ≠ "high") (h2 : s.confidence ≠ "medium") :
    (runAttempt env ft).wrote = false ∧
    (runAttempt env ft).correction = none ∧
    (runAttempt env ft).patchedContent = env.patchEnv.pageContent := by
  rcases attemptBody_cases env ft with ⟨e, he⟩ | he | ⟨s2, hai2, hc, _⟩
  · rw [runAttempt_error env ft e he]; exact ⟨rfl, rfl, rfl⟩
  · unfold runAttempt; rw [he]; exact ⟨rfl, rfl, rfl⟩
  · rw [hai] at hai2
    injection hai2 with hs
    subst hs
    rcases hc with hc | hc
    · exact absurd hc h1
    · exact absurd hc h2

/-- Failed test of the C6 witness: its error message carries an
extractable locator. -/
def c6ft : FailedTest :=
  ⟨"login test", "tests/login.spec.ts",
    "Error: ".toList ++ "locator".toList ++ [lparen, squote] ++ "x".toList ++
      [squote, rparen] ++ " not found".toList⟩

/-- Attempt environment of the C6 witness: everything up to the
confidence gate would succeed (readable test file with a navigation call,
fetched markup, matching page-object content), but the advisory
confidence is low. -/
def c6env : AttemptEnv :=
  ⟨some ("await ".toList ++ gotoLit ++ [squote] ++ "hu".toList ++ [squote, rparen]),
   true,
   some ⟨"x".toList, "y".toList, "low", "uncertain"⟩,
   ⟨true, true, true, [squote] ++ "x".toList ++ [squote], true⟩⟩

/-- Witness for C6: the concrete low-confidence attempt applies
nothing. -/
theorem c6_witness :
    c6env.aiResponse = some ⟨"x".toList, "y".toList, "low", "uncertain"⟩ ∧
    (runAttempt c6env c6ft).wrote = false ∧
    (runAttempt c6env c6ft).correction = none ∧
    (runAttempt c6env c6ft).patchedContent = c6env.patchEnv.pageContent :=
  ⟨rfl,
    c6_low_confidence_never_applied c6env c6ft
      ⟨"x".toList, "y".toList, "low", "uncertain"⟩ rfl (by decide) (by decide)⟩

/-- C8 (amended).  The claim said a correction is recorded only when the
patch write actually changed the file content; in fact the source never
compares the content before and after — it records a correction exactly
when the patch call reported an update, that is, when a replacement
pattern matched (and the write succeeded), even if the written content is
byte-for-byte identical (which happens when the suggested selector equals
the original).  Proved here: a correction is recorded if and only if the
patch reported an update, and any reported update means pattern 1 matched
on the page-object content, the write succeeded, and the recorded content
is the global replacement. -/
theorem c8_correction_recorded_iff_patch_reported_update
    (env : AttemptEnv) (ft : FailedTest) :
    (runAttempt env ft).correction.isSome = (runAttempt env ft).wrote ∧
    ((runAttempt env ft).wrote = true →
      ∃ s, env.aiResponse = some s ∧
        (s.confidence = "high" ∨ s.confidence = "medium") ∧
        env.patchEnv.writeOk = true ∧
        matchesP1 s.originalSelector env.patchEnv.pageContent = true ∧
        (runAttempt env ft).patchedContent
          = scanReplace1 s.originalSelector s.suggestedSelector env.patchEnv.pageContent) := by
  rcases attemptBody_cases env ft with ⟨e, he⟩ | he | ⟨s, hai, hc, he⟩
  · rw [runAttempt_error env ft e he]
    exact ⟨rfl, fun h => absurd h (by simp [skippedOutcome])⟩
  · unfold runAttempt; rw [he]
    exact ⟨rfl, fun h => absurd h (by simp [skippedOutcome])⟩
  · unfold runAttempt; rw [he]
    by_cases hu : (updatePageObjectSelector env.patchEnv s).updated = true
    · obtain ⟨_, _, _, hw, hm, hcont⟩ := patch_updated_spec env.patchEnv s hu
      simp only [hu, if_true]
      exact ⟨rfl, fun _ => ⟨s, hai, hc, hw, hm, hcont⟩⟩
    · have huf : (updatePageObjectSelector env.patchEnv s).updated = false := by
        simpa using hu
      simp only [huf, Bool.false_eq_true, if_false]
      exact ⟨rfl, fun h => absurd h (by simp)⟩

/-- Failed test of the C8 witness. -/
def c8wft : FailedTest :=
  ⟨"nav test", "tests/nav.spec.ts",
    "Error: ".toList ++ "locator".toList ++ [lparen, squote] ++ "x".toList ++
      [squote, rparen] ++ " gone".toList⟩

/-- Attempt environment of the C8 witness: a high-confidence suggestion
patches a matching page object. -/
def c8wenv : AttemptEnv :=
  ⟨some ("await ".toList ++ gotoLit ++ [squote] ++ "hu".toList ++ [squote, rparen]),
   true,
   some ⟨"x".toList, "z".toList, "high", "replace"⟩,
   ⟨true, true, true, [squote] ++ "x".toList ++ [squote], true⟩⟩

/-- Witness for C8: on a concrete applying attempt, recorded equals
wrote, and the reported update decomposes as the theorem states. -/
theorem c8_witness :
    (runAttempt c8wenv c8wft).correction.isSome = (runAttempt c8wenv c8wft).wrote ∧
    (∃ s, c8wenv.aiResponse = some s ∧
      (s.confidence = "high" ∨ s.confidence = "medium") ∧
      c8wenv.patchEnv.writeOk = true ∧
      matchesP1 s.originalSelector c8wenv.patchEnv.pageContent = true ∧
      (runAttempt c8wenv c8wft).patchedContent
        = scanReplace1 s.originalSelector s.suggestedSelector c8wenv.patchEnv.pageContent) :=
  ⟨(c8_correction_recorded_iff_patch_reported_update c8wenv c8wft).1,
   (c8_correction_recorded_iff_patch_reported_update c8wenv c8wft).2 (by decide)⟩

/-- Failed test of the C8 counterexample. -/
def c8ft : FailedTest :=
  ⟨"search test", "tests/search.spec.ts",
    "Error: ".toList ++ "locator".toList ++ [lparen, squote] ++ "x".toList ++
      [squote, rparen] ++ " timed out".toList⟩

/-- Attempt environment of the C8 counterexample: the advisory suggests
the very selector that failed, with high confidence. -/
def c8env : AttemptEnv :=
  ⟨some ("await ".toList ++ gotoLit ++ [squote] ++ "hu".toList ++ [squote, rparen]),
   true,
   some ⟨"x".toList, "x".toList, "high", "same selector"⟩,
   ⟨true, true, true, [squote] ++ "x".toList ++ [squote], true⟩⟩

/-- Counterexample to C8 as stated: the patch write leaves the
page-object content byte-for-byte equal to what it was, yet a correction
is recorded for the attempt. -/
theorem c8_counterexample :
    (runAttempt c8env c8ft).patchedContent = c8env.patchEnv.pageContent ∧
    (runAttempt c8env c8ft).correction
      = some ⟨"search test", "tests/search.spec.ts", "x".toList, "x".toList⟩ := by
  decide

/-- An attempt that fails in any of the claim's enumerated ways records
no correction: the locator extraction finds nothing, the page-file read
throws (caught by the loop), the URL extraction finds nothing, the page
fetch fails, the advisory call fails or its response is unparseable
(thrown, caught by the loop), or the patch call reports no change — which
is in particular what every patch error yields, since
`updatePageObjectSelector` catches its own errors and returns false. -/
theorem runAttempt_skip_cases (env : AttemptEnv) (ft : FailedTest)
    (h : extractSelector ft.error = none
       ∨ env.pageFileContent = none
       ∨ (∀ pc, env.pageFileContent = some pc → extractUrl pc = none)
       ∨ env.htmlFetched = false
       ∨ env.aiResponse = none
       ∨ (∀ s, env.aiResponse = some s →
           (updatePageObjectSelector env.patchEnv s).updated = false)) :
    (runAttempt env ft).correction = none := by
  cases hsel : extractSelector ft.error with
  | none => simp [runAttempt, attemptBody, hsel, skippedOutcome]
  | some sel =>
    cases hpc : env.pageFileContent with
    | none => simp [runAttempt, attemptBody, hsel, hpc, skippedOutcome]
    | some pc =>
      cases hurl : extractUrl pc with
      | none => simp [runAttempt, attemptBody, hsel, hpc, hurl, skippedOutcome]
      | some u =>
        cases hf : env.htmlFetched with
        | false =>
          simp [runAttempt, attemptBody, hsel, hpc, hurl, hf, skippedOutcome]
        | true =>
          cases hai : env.aiResponse with
          | none =>
            simp [runAttempt, attemptBody, hsel, hpc, hurl, hf, hai, skippedOutcome]
          | some s =>
            rcases h with h | h | h | h | h | h
            · rw [h] at hsel; exact Option.noConfusion hsel
            · rw [hpc] at h; exact Option.noConfusion h
            · have hu2 := h pc hpc
              rw [hurl] at hu2; exact Option.noConfusion hu2
            · rw [hf] at h; exact Bool.noConfusion h
            · rw [hai] at h; exact Option.noConfusion h
            · have hupd := h s hai
              by_cases hcb : (decide (s.confidence = "high")
                  || decide (s.confidence = "medium")) = true
              · simp [runAttempt, attemptBody, hsel, hpc, hurl, hf, hai, hcb, hupd]
              · have hcbf : (decide (s.confidence = "high")
                    || decide (s.confidence = "medium")) = false := by
                  simpa using hcb
                simp [runAttempt, attemptBody, hsel, hpc, hurl, hf, hai, hcbf,
                  skippedOutcome]

/-- C9 (confirmed).  A failure in any single correction attempt — the
locator extraction absent, the page-file read rejected, the URL
extraction absent, the page fetch failing, the advisory call failing or
its response unparseable, or a patch error (the patcher catches its own
errors and reports no change) — causes only that attempt to be skipped:
the loop result is the same as if the failing attempt were absent, the
remaining attempts before and after it are processed unchanged, and no
error propagates out of `correctFailedSelectors` (which is total and
returns a plain list). -/
theorem c9_failing_attempt_only_skipped
    (xs ys : List (FailedTest × AttemptEnv)) (ft : FailedTest) (env : AttemptEnv)
    (h : extractSelector ft.error = none
       ∨ env.pageFileContent = none
       ∨ (∀ pc, env.pageFileContent = some pc → extractUrl pc = none)
       ∨ env.htmlFetched = false
       ∨ env.aiResponse = none
       ∨ (∀ s, env.aiResponse = some s →
           (updatePageObjectSelector env.patchEnv s).updated = false)) :
    correctFailedSelectors (xs ++ (ft, env) :: ys)
      = correctFailedSelectors (xs ++ ys) := by
  have hnone : (runAttempt env ft).correction = none := runAttempt_skip_cases env ft h
  rw [correctFailedSelectors_eq_filterMap, correctFailedSelectors_eq_filterMap]
  simp [List.filterMap_append, List.filterMap_cons, hnone]

/-- Failed test of the C9 witness. -/
def c9ft : FailedTest :=
  ⟨"cart test", "tests/cart.spec.ts",
    "Error: ".toList ++ "locator".toList ++ [lparen, squote] ++ "x".toList ++
      [squote, rparen] ++ " not visible".toList⟩

/-- A C9 attempt environment whose attempt succeeds and applies a
correction. -/
def c9good : AttemptEnv :=
  ⟨some ("await ".toList ++ gotoLit ++ [squote] ++ "hu".toList ++ [squote, rparen]),
   true,
   some ⟨"x".toList, "y".toList, "high", "replace"⟩,
   ⟨true, true, true, [squote] ++ "x".toList ++ [squote], true⟩⟩

/-- A C9 attempt environment whose page-file read throws. -/
def c9bad : AttemptEnv :=
  ⟨none, true,
   some ⟨"x".toList, "y".toList, "high", "replace"⟩,
   ⟨true, true, true, [squote] ++ "x".toList ++ [squote], true⟩⟩

/-- A C9 failed test whose error message carries no extractable locator
(no quoted text at all). -/
def c9ftNoSel : FailedTest :=
  ⟨"cart test", "tests/cart.spec.ts", "Error: timeout waiting for element".toList⟩

/-- A C9 attempt environment whose test-file text has no navigation call:
the URL extraction finds nothing. -/
def c9noUrl : AttemptEnv :=
  ⟨some "const total = 1;".toList, true,
   some ⟨"x".toList, "y".toList, "high", "replace"⟩,
   ⟨true, true, true, [squote] ++ "x".toList ++ [squote], true⟩⟩

/-- A C9 attempt environment whose page fetch fails. -/
def c9noFetch : AttemptEnv :=
  ⟨some ("await ".toList ++ gotoLit ++ [squote] ++ "hu".toList ++ [squote, rparen]),
   false,
   some ⟨"x".toList, "y".toList, "high", "replace"⟩,
   ⟨true, true, true, [squote] ++ "x".toList ++ [squote], true⟩⟩

/-- A C9 attempt environment whose advisory call fails or returns an
unparseable response. -/
def c9noParse : AttemptEnv :=
  ⟨some ("await ".toList ++ gotoLit ++ [squote] ++ "hu".toList ++ [squote, rparen]),
   true, none,
   ⟨true, true, true, [squote] ++ "x".toList ++ [squote], true⟩⟩

/-- A C9 attempt environment whose patch call errors (the read of the
page-object file throws; the patcher catches it and reports no
change). -/
def c9patchErr : AttemptEnv :=
  ⟨some ("await ".toList ++ gotoLit ++ [squote] ++ "hu".toList ++ [squote, rparen]),
   true,
   some ⟨"x".toList, "y".toList, "high", "replace"⟩,
   ⟨true, true, false, [squote] ++ "x".toList ++ [squote], true⟩⟩

/-- Witness for C9, one instance of the theorem per failure kind: an
attempt with no extractable locator, with a rejected page-file read, with
no extractable URL, with a failed page fetch, with an unparseable
advisory, or with a patch error, placed between two successful attempts,
is skipped while both neighbours still contribute their corrections. -/
theorem c9_witness :
    correctFailedSelectors ([(c9ftNoSel, c9good)] ++ (c9ft, c9bad) :: [(c9ft, c9good)])
      = correctFailedSelectors ([(c9ftNoSel, c9good)] ++ [(c9ft, c9good)]) ∧
    correctFailedSelectors ([(c9ft, c9good)] ++ (c9ftNoSel, c9good) :: [(c9ft, c9good)])
      = correctFailedSelectors ([(c9ft, c9good)] ++ [(c9ft, c9good)]) ∧
    correctFailedSelectors ([(c9ft, c9good)] ++ (c9ft, c9noUrl) :: [(c9ft, c9good)])
      = correctFailedSelectors ([(c9ft, c9good)] ++ [(c9ft, c9good)]) ∧
    correctFailedSelectors ([(c9ft, c9good)] ++ (c9ft, c9noFetch) :: [(c9ft, c9good)])
      = correctFailedSelectors ([(c9ft, c9good)] ++ [(c9ft, c9good)]) ∧
    correctFailedSelectors ([(c9ft, c9good)] ++ (c9ft, c9noParse) :: [(c9ft, c9good)])
      = correctFailedSelectors ([(c9ft, c9good)] ++ [(c9ft, c9good)]) ∧
    correctFailedSelectors ([(c9ft, c9good)] ++ (c9ft, c9patchErr) :: [(c9ft, c9good)])
      = correctFailedSelectors ([(c9ft, c9good)] ++ [(c9ft, c9good)]) ∧
    correctFailedSelectors ([(c9ft, c9good)] ++ [(c9ft, c9good)])
      = [⟨"cart test", "tests/cart.spec.ts", "x".toList, "y".toList⟩,
         ⟨"cart test", "tests/cart.spec.ts", "x".toList, "y".toList⟩] :=
  ⟨c9_failing_attempt_only_skipped [(c9ftNoSel, c9good)] [(c9ft, c9good)] c9ft c9bad
      (Or.inr (Or.inl rfl)),
   c9_failing_attempt_only_skipped [(c9ft, c9good)] [(c9ft, c9good)] c9ftNoSel c9good
      (Or.inl (by decide)),
   c9_failing_attempt_only_skipped [(c9ft, c9good)] [(c9ft, c9good)] c9ft c9noUrl
      (Or.inr (Or.inr (Or.inl (by
        intro pc hp
        injection hp with hp2
        subst hp2
        decide)))),
   c9_failing_attempt_only_skipped [(c9ft, c9good)] [(c9ft, c9good)] c9ft c9noFetch
      (Or.inr (Or.inr (Or.inr (Or.inl rfl)))),
   c9_failing_attempt_only_skipped [(c9ft, c9good)] [(c9ft, c9good)] c9ft c9noParse
      (Or.inr (Or.inr (Or.inr (Or.inr (Or.inl rfl))))),
   c9_failing_attempt_only_skipped [(c9ft, c9good)] [(c9ft, c9good)] c9ft c9patchErr
      (Or.inr (Or.inr (Or.inr (Or.inr (Or.inr (by
        intro s hs
        injection hs with hs2
        subst hs2
        decide)))))),
   by decide⟩

/-- C3 (confirmed).  The Repair Loop Controller reruns the Test Runner
Adapter exactly once (two runner invocations in total) when the collected
corrections list is non-empty, and not at all (one invocation) when it is
empty; and there is never a second correction pass (the correction loop
is invoked at most once). -/
theorem c3_exactly_one_rerun_iff_corrections (env : Agent3Env) :
    ((triggerAgent3 env).correctedSelectors ≠ [] →
      (triggerAgent3 env).runnerCalls = 2) ∧
    ((triggerAgent3 env).correctedSelectors = [] →
      (triggerAgent3 env).runnerCalls = 1) ∧
    (triggerAgent3 env).correctionLoopCalls ≤ 1 := by
  by_cases hf : env.initial.failed > 0
  · by_cases hc :
      (correctFailedSelectors (env.initial.failedTests.zip env.attemptEnvs)).length > 0
    · have hne : correctFailedSelectors (env.initial.failedTests.zip env.attemptEnvs) ≠ [] :=
        List.ne_nil_of_length_pos hc
      simp [triggerAgent3, hf, hc, hne]
    · have hnil : correctFailedSelectors (env.initial.failedTests.zip env.attemptEnvs) = [] :=
        List.eq_nil_of_length_eq_zero (by omega)
      simp [triggerAgent3, hf, hc, hnil]
  · simp [triggerAgent3, hf]

/-- Failed test of the C3 witness. -/
def c3ft : FailedTest :=
  ⟨"menu test", "tests/menu.spec.ts",
    "Error: ".toList ++ "locator".toList ++ [lparen, squote] ++ "x".toList ++
      [squote, rparen] ++ " detached".toList⟩

/-- Repair-loop environment of the C3 witness: one failing test whose
attempt applies a correction. -/
def c3env : Agent3Env :=
  ⟨⟨3, 2, 1, [c3ft]⟩,
   [⟨some ("await ".toList ++ gotoLit ++ [squote] ++ "hu".toList ++ [squote, rparen]),
     true,
     some ⟨"x".toList, "y".toList, "high", "replace"⟩,
     ⟨true, true, true, [squote] ++ "x".toList ++ [squote], true⟩⟩],
   ⟨3, 3, 0, []⟩, 17⟩

/-- Witness for C3: the concrete run applies one correction and invokes
the runner exactly twice. -/
theorem c3_witness :
    (triggerAgent3 c3env).correctedSelectors ≠ [] ∧
    (triggerAgent3 c3env).runnerCalls = 2 ∧
    (triggerAgent3 c3env).correctionLoopCalls ≤ 1 :=
  ⟨by decide, (c3_exactly_one_rerun_iff_corrections c3env).1 (by decide),
    (c3_exactly_one_rerun_iff_corrections c3env).2.2⟩

/-- C4 (confirmed).  When the initial run reports no failure, the
correction loop is never invoked, no correction is recorded, the runner
is not rerun, and the initial result is returned as the final result. -/
theorem c4_no_failures_no_correction (env : Agent3Env)
    (h : env.initial.failed = 0) :
    (triggerAgent3 env).correctionLoopCalls = 0 ∧
    (triggerAgent3 env).correctedSelectors = [] ∧
    (triggerAgent3 env).runnerCalls = 1 ∧
    (triggerAgent3 env).totalTests = env.initial.totalTests ∧
    (triggerAgent3 env).passed = env.initial.passed ∧
    (triggerAgent3 env).failed = env.initial.failed := by
  simp [triggerAgent3, h]

/-- Repair-loop environment of the C4 witness: four passing tests. -/
def c4env : Agent3Env := ⟨⟨4, 4, 0, []⟩, [], ⟨0, 0, 0, []⟩, 3⟩

/-- Witness for C4: the concrete all-passing run ends with the initial
result and no correction activity. -/
theorem c4_witness :
    c4env.initial.failed = 0 ∧
    (triggerAgent3 c4env).correctionLoopCalls = 0 ∧
    (triggerAgent3 c4env).correctedSelectors = [] ∧
    (triggerAgent3 c4env).runnerCalls = 1 ∧
    (triggerAgent3 c4env).totalTests = 4 ∧
    (triggerAgent3 c4env).passed = 4 ∧
    (triggerAgent3 c4env).failed = 0 :=
  ⟨rfl, c4_no_failures_no_correction c4env rfl⟩

/-- C10 (confirmed).  On the retried path the rerun updates only `passed`
and `failed`: `totalTests`, `startTime` and `correctedSelectors` keep
their pre-rerun values (`totalTests` is always the initial run's total).
Consequently, a rerun reporting a different number of tests makes the
final aggregate violate `totalTests = passed + failed`, witnessed by a
concrete environment. -/
theorem c10_rerun_updates_only_passed_failed :
    (∀ env : Agent3Env,
      env.initial.failed > 0 →
      correctFailedSelectors (env.initial.failedTests.zip env.attemptEnvs) ≠ [] →
      (triggerAgent3 env).totalTests = env.initial.totalTests ∧
      (triggerAgent3 env).startTime = env.startTime ∧
      (triggerAgent3 env).correctedSelectors
        = correctFailedSelectors (env.initial.failedTests.zip env.attemptEnvs) ∧
      (triggerAgent3 env).passed = env.retry.passed ∧
      (triggerAgent3 env).failed = env.retry.failed ∧
      (triggerAgent3 env).runnerCalls = 2) ∧
    (∃ env : Agent3Env,
      (triggerAgent3 env).runnerCalls = 2 ∧
      (triggerAgent3 env).totalTests
        ≠ (triggerAgent3 env).passed + (triggerAgent3 env).failed) := by
  constructor
  · intro env hf hne
    have hc :
        (correctFailedSelectors (env.initial.failedTests.zip env.attemptEnvs)).length > 0 :=
      List.length_pos.mpr hne
    simp [triggerAgent3, hf, hc]
  · refine ⟨⟨⟨5, 3, 2,
      [⟨"tab test", "tests/tab.spec.ts",
        "Error: ".toList ++ "locator".toList ++ [lparen, squote] ++ "x".toList ++
          [squote, rparen] ++ " missing".toList⟩]⟩,
      [⟨some ("await ".toList ++ gotoLit ++ [squote] ++ "hu".toList ++ [squote, rparen]),
        true,
        some ⟨"x".toList, "y".toList, "medium", "replace"⟩,
        ⟨true, true, true, [squote] ++ "x".toList ++ [squote], true⟩⟩],
      ⟨2, 1, 1, []⟩, 5⟩, by decide, by decide⟩

/-- Failed test of the C10 witness. -/
def c10ft : FailedTest :=
  ⟨"form test", "tests/form.spec.ts",
    "Error: ".toList ++ "locator".toList ++ [lparen, squote] ++ "x".toList ++
      [squote, rparen] ++ " hidden".toList⟩

/-- Repair-loop environment of the C10 witness: the rerun reports fewer
tests than the initial run. -/
def c10env : Agent3Env :=
  ⟨⟨5, 3, 2, [c10ft]⟩,
   [⟨some ("await ".toList ++ gotoLit ++ [squote] ++ "hu".toList ++ [squote, rparen]),
     true,
     some ⟨"x".toList, "y".toList, "high", "replace"⟩,
     ⟨true, true, true, [squote] ++ "x".toList ++ [squote], true⟩⟩],
   ⟨2, 1, 1, []⟩, 11⟩

/-- Witness for C10: the frame conditions instantiated on a concrete
retried run. -/
theorem c10_witness :
    (triggerAgent3 c10env).totalTests = 5 ∧
    (triggerAgent3 c10env).startTime = 11 ∧
    (triggerAgent3 c10env).passed = 1 ∧
    (triggerAgent3 c10env).failed = 1 :=
  ⟨(c10_rerun_updates_only_passed_failed.1 c10env (by decide) (by decide)).1,
   (c10_rerun_updates_only_passed_failed.1 c10env (by decide) (by decide)).2.1,
   (c10_rerun_updates_only_passed_failed.1 c10env (by decide) (by decide)).2.2.2.1,
   (c10_rerun_updates_only_passed_failed.1 c10env (by decide) (by decide)).2.2.2.2.1⟩

/-- C5 (amended).  The claim asserted both invariants for any report
content.  In fact `failed = |failedTests|` does hold unconditionally (the
two fields are always updated together, and a missing or unparseable
report yields the zero result), but `totalTests = passed + failed` can be
broken by a well-formed JSON report carrying a `null` entry in a `tests`
array: the walk increments `totalTests` and then throws on the `null`
before classifying the test, and the catch keeps the partial counts.
Proved here: `failed = |failedTests|` always, and
`totalTests = passed + failed` for every report with no `null` test entry
(including missing, unparseable and suites-less reports). -/
theorem c5_runner_result_invariants (r : ReportOutcome) :
    (runPlaywrightTests r).failed = (runPlaywrightTests r).failedTests.length ∧
    (reportOk r = true →
      (runPlaywrightTests r).totalTests
        = (runPlaywrightTests r).passed + (runPlaywrightTests r).failed) := by
  cases r with
  | unreadable => exact ⟨rfl, fun _ => rfl⟩
  | parsed o =>
    cases o with
    | none => exact ⟨rfl, fun _ => rfl⟩
    | some suites =>
      constructor
      · exact walkSuites_failed suites emptyRunResult rfl
      · intro hok
        exact walkSuites_total suites (by simpa [reportOk] using hok)
          emptyRunResult rfl

/-- A well-formed two-test report (one passed, one failed) for the C5
witness. -/
def c5report : ReportOutcome :=
  .parsed (some
    [some ⟨some
      [some ⟨"passed", "login ok", "tests/login.spec.ts", none⟩,
       some ⟨"failed", "login bad", "tests/login.spec.ts",
         some "boom".toList⟩]⟩])

/-- Witness for C5: both invariants on a concrete well-formed report. -/
theorem c5_witness :
    reportOk c5report = true ∧
    (runPlaywrightTests c5report).failed
      = (runPlaywrightTests c5report).failedTests.length ∧
    (runPlaywrightTests c5report).totalTests
      = (runPlaywrightTests c5report).passed + (runPlaywrightTests c5report).failed :=
  ⟨by decide, (c5_runner_result_invariants c5report).1,
    (c5_runner_result_invariants c5report).2 (by decide)⟩

/-- Counterexample to C5 as stated: a parseable report whose single
`tests` array holds a JSON `null` yields `totalTests = 1` with
`passed = failed = 0`, violating `totalTests = passed + failed`. -/
theorem c5_counterexample :
    runPlaywrightTests (.parsed (some [some ⟨some [none]⟩])) = ⟨1, 0, 0, []⟩ ∧
    (1 : Nat) ≠ 0 + 0 := by
  decide

/-- C2 (amended).  The claim said a Materialize (Agent 2) failure after a
successful Create never aborts the run.  That holds for the direct
Agent 2 invocation of `triggerFullWorkflow` (wrapped in its own catch:
the failure is logged and the run continues through Agent 3 to the
completion banner) — but Agent 1 itself awaits Agent 2 at the end of its
body and rethrows any error, so a Materialize failure inside that
embedded call makes `triggerAgent1` throw, and the workflow's outer catch
aborts the run before the Execute stage.  Proved here: both behaviours. -/
theorem c2_materialize_failure_direct_vs_embedded (env : WorkflowEnv) :
    (triggerAgent1 env.agent1 = .ok () →
      (triggerFullWorkflow env).agent3Invoked = true ∧
      (triggerFullWorkflow env).completionLogged = true ∧
      (env.directAgent2.isOk = false →
        (triggerFullWorkflow env).agent2ErrorLogged = true)) ∧
    (∀ e : String,
      env.agent1.jiraStart = .ok () → env.agent1.generation = .ok () →
      env.agent1.save = .ok () → env.agent1.jiraDone = .ok () →
      env.agent1.embeddedAgent2 = .error e →
      (triggerFullWorkflow env).agent3Invoked = false ∧
      (triggerFullWorkflow env).completionLogged = false ∧
      (triggerFullWorkflow env).fatalErrorLogged = true) := by
  constructor
  · intro h
    refine ⟨?_, ?_, ?_⟩ <;> simp [triggerFullWorkflow, h]
  · intro e h1 h2 h3 h4 h5
    have ha : triggerAgent1 env.agent1 = .error e := by
      simp [triggerAgent1, h1, h2, h3, h4, h5]
    refine ⟨?_, ?_, ?_⟩ <;> simp [triggerFullWorkflow, ha]

/-- Workflow environment of the C2 witness: Agent 1 (with its embedded
Agent 2 call) succeeds, the direct Agent 2 invocation fails. -/
def c2env : WorkflowEnv :=
  ⟨⟨.ok (), .ok (), .ok (), .ok (), .ok ()⟩, true, .error "push rejected", .ok ()⟩

/-- Witness for C2: with the direct Materialize step failing, the failure
is logged and the run still reaches Agent 3 and the completion banner. -/
theorem c2_witness :
    (triggerFullWorkflow c2env).agent3Invoked = true ∧
    (triggerFullWorkflow c2env).completionLogged = true ∧
    (triggerFullWorkflow c2env).agent2ErrorLogged = true :=
  ⟨((c2_materialize_failure_direct_vs_embedded c2env).1 rfl).1,
   ((c2_materialize_failure_direct_vs_embedded c2env).1 rfl).2.1,
   ((c2_materialize_failure_direct_vs_embedded c2env).1 rfl).2.2 rfl⟩

/-- Workflow environment of the C2 counterexample: test-case generation
succeeds, but the Agent 2 call embedded in Agent 1 fails. -/
def c2xenv : WorkflowEnv :=
  ⟨⟨.ok (), .ok (), .ok (), .ok (), .error "clone failed"⟩, true,
   .error "clone failed", .ok ()⟩

/-- Counterexample to C2 as stated: the Create stage (test-case
generation) succeeded and the Materialize stage failed, yet Agent 3 is
never invoked and the completion banner is never reached — the run was
aborted. -/
theorem c2_counterexample :
    c2xenv.agent1.generation = .ok () ∧
    c2xenv.agent1.embeddedAgent2 = .error "clone failed" ∧
    (triggerFullWorkflow c2xenv).agent3Invoked = false ∧
    (triggerFullWorkflow c2xenv).completionLogged = false :=
  ⟨rfl, rfl, rfl, rfl⟩

end JiraAuto
